import Mathlib

/-!
Shallow embedding of the TPSA truncated power-series engine
(`src/TPSA.py`) and of the symbolic function delegate
(`src/DelegateFunc.py`).

A numeric series is its coefficient vector `_fx`, modelled as a
`List K` over a field `K` (the theorems instantiate `K := ℝ`,
idealising numpy floating point as exact real arithmetic).  The
process-wide truncation order `TPSA._ORDER` is passed explicitly as a
parameter `n`; the binomial table `TPSA._binom_coeffs` is
`fun j k => (Nat.choose j k : K)` (scipy's `binom` at natural
arguments, which is `0` for `k > j`).  Operations that can raise a
Python exception return `Except PyErr`; operations that are total on
the inputs actually reached by the modelled code paths are plain
functions.
-/

/-- Python-level errors raised by the engine, one constructor per
distinct error site: the constructor's length check
(`ValueError: Input is length {got}, should be {expected}`), the
constructor's final type check (`TypeError: Value is invalid type, must
be list/tuple or single float`), the elementary functions' explicit
`AttributeError: Function only accepts TPSA object`, the domain error
of `__abs__`, and the two numpy shape errors (einsum operand mismatch
and broadcasting mismatch on array assignment/addition). -/
inductive PyErr
  | lengthMismatch (got expected : ℕ)
  | invalidType
  | onlySeries
  | absAmbiguous
  | einsumShape
  | broadcastShape
  deriving DecidableEq

/-- Possible arguments of `TPSA.__init__`: a list/tuple/ndarray of
numbers, a plain number, or (as happens inside `TPSA.logistic`) an
already-constructed TPSA object, which matches none of the accepted
`isinstance` branches. -/
inductive TPSAInput (K : Type)
  | seq (xs : List K)
  | num (x : K)
  | obj (s : List K)

/-- Possible arguments of the static elementary functions
(`TPSA.exp`, …): a plain number (a non-series argument) or a TPSA
series. -/
inductive PyVal (K : Type)
  | num (x : K)
  | series (s : List K)

variable {K : Type} [Field K]

/-- Reading `_fx[i]`; every modelled access is in range. -/
def coeff (a : List K) (i : ℕ) : K := a.getD i 0

/-- The scalar branches of `__add__` / `__radd__` / `__sub__` and the
scalar constants added by the elementary functions: copy the
coefficient vector and do `temp[0] += x`. -/
def addCoeff0 (x : K) : List K → List K
  | [] => []
  | c :: cs => (c + x) :: cs

/-- `TPSA.__init__`: a sequence is stored verbatim after the length
check against `_ORDER + 1`; a number `x` becomes
`[x, 1.0, 0.0, …, 0.0]` (the setter guarantees `_ORDER > 1`, so the
`_fx[1] = 1.0` write is in range); any other object — in particular a
TPSA instance — raises the type error. -/
def tpsaInit (n : ℕ) : TPSAInput K → Except PyErr (List K)
  | .seq xs =>
      if xs.length = n + 1 then .ok xs
      else .error (.lengthMismatch xs.length (n + 1))
  | .num x => .ok (x :: 1 :: List.replicate (n - 1) 0)
  | .obj _ => .error .invalidType

/-- `TPSA(array)` on a numeric array: the sequence branch of the
constructor. -/
def tpsaMkSeq (n : ℕ) (xs : List K) : Except PyErr (List K) :=
  tpsaInit n (.seq xs)

/-- `TPSA(x)` on a number: the scalar branch of the constructor. -/
def tpsaMkScalar (n : ℕ) (x : K) : List K :=
  x :: 1 :: List.replicate (n - 1) 0

/-- Numpy elementwise `self._fx + other._fx` on one-dimensional
arrays: a broadcasting `ValueError` unless the lengths agree. -/
def npBinAdd (a b : List K) : Except PyErr (List K) :=
  if a.length = b.length then .ok (List.zipWith (fun x y => x + y) a b)
  else .error .broadcastShape

/-- `TPSA.__add__` on two series: `TPSA(self._fx + other._fx)` — the
numpy sum followed by the length-validating constructor. -/
def tpsaAddE (n : ℕ) (a b : List K) : Except PyErr (List K) := do
  let s ← npBinAdd a b
  tpsaMkSeq n s

/-- `TPSA.__neg__`: `TPSA(-self._fx)` — negate, then the
length-validating constructor. -/
def tpsaNegE (n : ℕ) (a : List K) : Except PyErr (List K) :=
  tpsaMkSeq n (a.map (fun c => -c))

/-- `TPSA.__sub__`: `self + (-other)` — `__neg__` (which constructs)
followed by `__add__` (which constructs again). -/
def tpsaSubE (n : ℕ) (a b : List K) : Except PyErr (List K) := do
  let nb ← tpsaNegE n b
  tpsaAddE n a nb

/-- One output coefficient of the numeric branch of `TPSA.__mul__`:
`val[j] = np.einsum('i,i,i->', TPSA._binom_coeffs[j], self._fx, temp)`
where `temp[:j+1] = other._fx[j::-1]` and `temp` is zero past index
`j`.  The einsum index `i` runs over the common operand length
`n + 1`. -/
def convCoeff (n : ℕ) (a b : List K) (j : ℕ) : K :=
  ((List.range (n + 1)).map (fun i =>
    (Nat.choose j i : K) * coeff a i * (if i ≤ j then coeff b (j - i) else 0))).sum

/-- The value array built by the numeric branch of `TPSA.__mul__` when
all operand lengths equal `n + 1`: one convolution coefficient per
index `j` of `range(len(self._fx))`. -/
def tpsaMulNum (n : ℕ) (a b : List K) : List K :=
  (List.range a.length).map (convCoeff n a b)

/-- `TPSA.__mul__` on two numeric series.  The loop runs `j` over
`range(len(self._fx))`; for a nonempty operand the first iteration's
einsum already requires the row `_binom_coeffs[0]` (length `n + 1`),
`self._fx` and `temp` (the shape of `other._fx`) to have one common
length, raising a shape `ValueError` otherwise; when the loop body
never fails the result array is passed to the length-validating
constructor (which also receives the empty array when `self._fx` is
empty, since then the loop does not run at all). -/
def tpsaMulE (n : ℕ) (a b : List K) : Except PyErr (List K) :=
  if a.length = 0 then tpsaMkSeq n []
  else if a.length = n + 1 ∧ b.length = n + 1 then
    tpsaMkSeq n (tpsaMulNum n a b)
  else .error .einsumShape

/-- The scalar branch of `TPSA.__mul__` / `__rmul__`:
`temp = self._fx.copy(); temp *= other; return TPSA(temp)`. -/
def tpsaScalarMulE (n : ℕ) (a : List K) (c : K) : Except PyErr (List K) :=
  tpsaMkSeq n (a.map (fun x => x * c))

/-- The scalar branch of `TPSA.__truediv__`:
`temp = self._fx.copy(); temp *= 1/other; return TPSA(temp)`. -/
def tpsaScalarDivE (n : ℕ) (a : List K) (c : K) : Except PyErr (List K) :=
  tpsaMkSeq n (a.map (fun x => x * (1 / c)))

/-- The loop of `TPSA._series` after the first factor: at each step
`accumulate *= store` (the in-place numeric convolution, identical code
to `__mul__`) and then `new += accumulate * f` (scalar-scaling
`accumulate` by the factor and adding elementwise in place). -/
def tpsaSeriesGo (n : ℕ) (store : List K) :
    List K → List K → List K → List K
  | _acc, new, [] => new
  | acc, new, f :: fs =>
      let acc2 := tpsaMulNum n acc store
      tpsaSeriesGo n store acc2
        (List.zipWith (fun x y => x + y) new (acc2.map (fun x => x * f))) fs

/-- `TPSA._series` on a numeric `trunc` of the current length `n + 1`:
`store` is `np.zeros(order+1)` with `store[1:] = trunc._fx[1:]`, i.e.
`trunc` with coefficient 0 zeroed out.  `accumulate` starts as the
integer `1`, so the first `accumulate *= store` goes through the
scalar branch of `__rmul__` (an elementwise `* 1`); `new` starts as the
integer `0`, so the first `new += accumulate*f` goes through `__radd__`
(`temp[0] += 0`).  With no factors the loop body never runs and the
integer `0` would be returned (unreachable: every caller supplies
`TPSA.order ≥ 2` factors); the remaining iterations are
`tpsaSeriesGo`. -/
def tpsaSeries (n : ℕ) (trunc : List K) : List K → List K
  | [] => []
  | f :: fs =>
      let store : List K := 0 :: trunc.drop 1
      let acc1 := store.map (fun x => x * 1)
      tpsaSeriesGo n store acc1 (addCoeff0 0 (acc1.map (fun x => x * f))) fs

/-- The factor generator of `__truediv__` / `__rtruediv__`:
`(-1)**(k+1)/divisor._fx[0]` for `k` in `range(TPSA.order)`. -/
def divFactors (n : ℕ) (c : K) : List K :=
  (List.range n).map (fun k => (-1 : K) ^ (k + 1) / c)

/-- `TPSA.__truediv__` on two series `a / b`:
`temp = TPSA._series(other/other._fx[0], factors) + (1/other._fx[0])`
— the inner `other/other._fx[0]` goes through the length-validating
scalar-division branch — then `self * temp` through the numeric
`__mul__`. -/
def tpsaDivE (n : ℕ) (a b : List K) : Except PyErr (List K) := do
  let u ← tpsaScalarDivE n b (coeff b 0)
  tpsaMulE n a
    (addCoeff0 (1 / coeff b 0) (tpsaSeries n u (divFactors n (coeff b 0))))

/-- `TPSA.__rtruediv__` for `c / a` with `c` a plain number: the same
expansion around `a/a._fx[0]`, then `other * temp` through the
length-validating scalar branch of `__rmul__`. -/
def tpsaRDivSE (n : ℕ) (c : K) (a : List K) : Except PyErr (List K) := do
  let u ← tpsaScalarDivE n a (coeff a 0)
  tpsaScalarMulE n
    (addCoeff0 (1 / coeff a 0) (tpsaSeries n u (divFactors n (coeff a 0)))) c

/-- `TPSA.exp` on a series of the current length: factors
`1/(k+1)!`, `pre = exp(trunc._fx[0])`, result
`pre * (TPSA._series(trunc, factors) + 1)`.  The base-point
exponential `np.exp` is the parameter `expF`. -/
def tpsaExpN (expF : K → K) (n : ℕ) (t : List K) : List K :=
  (addCoeff0 1 (tpsaSeries n t
      ((List.range n).map (fun k => 1 / (Nat.factorial (k + 1) : K))))).map
    (fun x => x * expF (coeff t 0))

/-- `TPSA.ln` on a series of the current length: factors
`(-1)^k/(k+1)`, result
`TPSA._series(trunc/trunc._fx[0], factors) + log(trunc._fx[0])`.
The base-point logarithm `np.log` is the parameter `logF`. -/
def tpsaLnN (logF : K → K) (n : ℕ) (t : List K) : List K :=
  addCoeff0 (logF (coeff t 0))
    (tpsaSeries n (t.map (fun x => x * (1 / coeff t 0)))
      ((List.range n).map (fun k => (-1 : K) ^ k / ((k + 1 : ℕ) : K))))

/-- `TPSA.sin` on a series of the current length:
`pre = [cos(t0), sin(t0)]`, factors
`pre[k%2] * (-1)**((k+1)//2) * (1/(k+1)!)`, result
`TPSA._series(trunc, factors) + sin(t0)`.  The base-point `np.cos` /
`np.sin` (reached through the `_cosFunc`/`_sinFunc` delegates, which
applied to a number just call the wrapped function) are the parameters
`cosF` and `sinF`. -/
def tpsaSinN (sinF cosF : K → K) (n : ℕ) (t : List K) : List K :=
  addCoeff0 (sinF (coeff t 0))
    (tpsaSeries n t ((List.range n).map (fun k =>
      (if k % 2 = 0 then cosF (coeff t 0) else sinF (coeff t 0)) *
        (-1 : K) ^ ((k + 1) / 2) * (1 / (Nat.factorial (k + 1) : K)))))

/-- `TPSA.cos` on a series of the current length:
`pre = [sin(t0), cos(t0)]`, factors
`pre[k%2] * (-1)**((k+2)//2) * (1/(k+1)!)`, result
`TPSA._series(trunc, factors) + cos(t0)`. -/
def tpsaCosN (sinF cosF : K → K) (n : ℕ) (t : List K) : List K :=
  addCoeff0 (cosF (coeff t 0))
    (tpsaSeries n t ((List.range n).map (fun k =>
      (if k % 2 = 0 then sinF (coeff t 0) else cosF (coeff t 0)) *
        (-1 : K) ^ ((k + 2) / 2) * (1 / (Nat.factorial (k + 1) : K)))))

/-- `TPSA.__pow__`: `TPSA.exp(power * TPSA.ln(self))`, with
`power * ln(self)` going through the scalar branch of `__rmul__`. -/
def tpsaPowN (expF logF : K → K) (n : ℕ) (t : List K) (p : K) : List K :=
  tpsaExpN expF n ((tpsaLnN logF n t).map (fun x => x * p))

/-- `TPSA.__abs__`: a domain `ValueError` when `_fx[0] == 0`, `-self`
(through `__neg__`, i.e. the length-validating constructor) when
`_fx[0] > 0`, and `self` itself otherwise. -/
def tpsaAbsE [LinearOrder K] (n : ℕ) (a : List K) : Except PyErr (List K) :=
  if coeff a 0 = 0 then .error .absAmbiguous
  else if 0 < coeff a 0 then tpsaNegE n a
  else .ok a

/-- `TPSA.exp` including its argument dispatch: a non-series argument
has no `_fx` attribute, so the `AttributeError` is caught and re-raised
as the explicit `Function only accepts TPSA object` error. -/
def tpsaExpD (expF : K → K) (n : ℕ) : PyVal K → Except PyErr (List K)
  | .num _ => .error .onlySeries
  | .series s => .ok (tpsaExpN expF n s)

/-- `TPSA.ln` including its argument dispatch. -/
def tpsaLnD (logF : K → K) (n : ℕ) : PyVal K → Except PyErr (List K)
  | .num _ => .error .onlySeries
  | .series s => .ok (tpsaLnN logF n s)

/-- `TPSA.sin` including its argument dispatch. -/
def tpsaSinD (sinF cosF : K → K) (n : ℕ) : PyVal K → Except PyErr (List K)
  | .num _ => .error .onlySeries
  | .series s => .ok (tpsaSinN sinF cosF n s)

/-- `TPSA.cos` including its argument dispatch. -/
def tpsaCosD (sinF cosF : K → K) (n : ℕ) : PyVal K → Except PyErr (List K)
  | .num _ => .error .onlySeries
  | .series s => .ok (tpsaCosN sinF cosF n s)

/-- `TPSA.tan`: `TPSA.sin(trunc) / TPSA.cos(trunc)` — both primitives
run (each re-raising on a non-series argument) and their quotient is
taken with `__truediv__`. -/
def tpsaTanD (sinF cosF : K → K) (n : ℕ) (v : PyVal K) :
    Except PyErr (List K) := do
  let s ← tpsaSinD sinF cosF n v
  let c ← tpsaCosD sinF cosF n v
  tpsaDivE n s c

/-- `TPSA.sec`: `1.0 / TPSA.cos(trunc)` via `__rtruediv__`. -/
def tpsaSecD (sinF cosF : K → K) (n : ℕ) (v : PyVal K) :
    Except PyErr (List K) := do
  let c ← tpsaCosD sinF cosF n v
  tpsaRDivSE n 1 c

/-- `TPSA.csc`: `1.0 / TPSA.sin(trunc)` via `__rtruediv__`. -/
def tpsaCscD (sinF cosF : K → K) (n : ℕ) (v : PyVal K) :
    Except PyErr (List K) := do
  let s ← tpsaSinD sinF cosF n v
  tpsaRDivSE n 1 s

/-- `TPSA.cot`: `TPSA.cos(trunc) / TPSA.sin(trunc)`. -/
def tpsaCotD (sinF cosF : K → K) (n : ℕ) (v : PyVal K) :
    Except PyErr (List K) := do
  let c ← tpsaCosD sinF cosF n v
  let s ← tpsaSinD sinF cosF n v
  tpsaDivE n c s

/-- `TPSA.tanh`: `temp = TPSA.exp(2*trunc)`, then
`(temp - 1)/(temp + 1)`.  With a numeric argument `x` the product
`2*trunc` is the plain number `2*x`, so `TPSA.exp` itself raises the
explicit non-series error; with a series argument `2*trunc` goes
through the length-validating scalar branch of `__rmul__`. -/
def tpsaTanhD (expF : K → K) (n : ℕ) (v : PyVal K) :
    Except PyErr (List K) := do
  let t ← match v with
    | .num x => tpsaExpD expF n (.num (2 * x))
    | .series s => do
        let s2 ← tpsaScalarMulE n s 2
        tpsaExpD expF n (.series s2)
  tpsaDivE n (addCoeff0 (-1) t) (addCoeff0 1 t)

/-- `TPSA.logistic(trunc, pow=1.0)`: `(1 + TPSA(-trunc)) ** pow`.
With a numeric argument `x` the inner `TPSA(-x)` is the scalar branch
of the constructor, so a genuine series is built and raised to the
power `p` — no error at all.  With a series argument, `-trunc` first
runs `__neg__` (whose constructor validates the length), and then the
outer `TPSA(…)` receives a TPSA object, which matches no `isinstance`
branch of the constructor and raises its `TypeError`. -/
def tpsaLogisticD (expF logF : K → K) (n : ℕ) (v : PyVal K) (p : K) :
    Except PyErr (List K) :=
  match v with
  | .num x => .ok (tpsaPowN expF logF n (addCoeff0 1 (tpsaMkScalar n (-x))) p)
  | .series s => do
      let ns ← tpsaNegE n s
      let t ← tpsaInit n (.obj ns)
      .ok (tpsaPowN expF logF n (addCoeff0 1 t) p)

/-- `TPSA.heaviside(trunc, sharp=10)`: `TPSA.logistic(2*sharp*trunc)`
with the default power `1`.  With a numeric argument the scaling stays
numeric; with a series argument `2*sharp*trunc` goes through the
length-validating scalar branch of `__rmul__`. -/
def tpsaHeavisideD (expF logF : K → K) (n : ℕ) (v : PyVal K) (sharp : K) :
    Except PyErr (List K) :=
  match v with
  | .num x => tpsaLogisticD expF logF n (.num (2 * sharp * x)) 1
  | .series s => do
      let t ← tpsaScalarMulE n s (2 * sharp)
      tpsaLogisticD expF logF n (.series t) 1

/-- `DelegateFunc`: a unary function paired with its display string. -/
structure DelegateFunc (K : Type) where
  func : K → K
  string : String

/-- The zero-literal test
`any((s == str(self) for s in ('0.0', '0', '-0.0', '-0')))` used by
`DelegateFunc.__mul__` for its constant-folding of the display
string. -/
def isZeroLiteral (s : String) : Bool :=
  s = "0.0" ∨ s = "0" ∨ s = "-0.0" ∨ s = "-0"

/-- The delegate-times-delegate branch of `DelegateFunc.__mul__`: the
pointwise product, whose display string puts the operand with the
shorter (or equal) name outside — and collapses to `"0"` exactly when
that chosen operand's own name is a textual zero literal. -/
def delegateMul (d g : DelegateFunc K) : DelegateFunc K :=
  if d.string.length ≤ g.string.length then
    { func := fun x => d.func x * g.func x
      string := if isZeroLiteral d.string then "0"
                else d.string ++ "*(" ++ g.string ++ ")" }
  else
    { func := fun x => d.func x * g.func x
      string := if isZeroLiteral g.string then "0"
                else g.string ++ "*(" ++ d.string ++ ")" }

/-- A heap of numpy arrays, for the aliasing claim about
`__getitem__`: each array is a cell indexed by a reference. -/
structure NpHeap (K : Type) where
  arrs : List (List K)

/-- Dereferencing an array reference. -/
def heapRead (σ : NpHeap K) (r : ℕ) : List K := σ.arrs.getD r []

/-- Allocating a fresh array cell, returning the new heap and the
fresh reference. -/
def heapAlloc (σ : NpHeap K) (v : List K) : NpHeap K × ℕ :=
  (⟨σ.arrs ++ [v]⟩, σ.arrs.length)

/-- In-place element assignment `arr[i] = x` on the array cell `r`. -/
def heapWrite (σ : NpHeap K) (r i : ℕ) (x : K) : NpHeap K :=
  ⟨σ.arrs.set r ((σ.arrs.getD r []).set i x)⟩

/-- Numpy basic slicing `v[lo:hi]` (with `0 ≤ lo ≤ hi`). -/
def npSlice (v : List K) (lo hi : ℕ) : List K := (v.take hi).drop lo

/-- `TPSA.__getitem__` with a slice argument:
`return self._fx[item].copy()` — the slice of the coefficient vector
is copied into a freshly allocated array, whose reference is
returned. -/
def tpsaGetSlice (σ : NpHeap K) (r lo hi : ℕ) : NpHeap K × ℕ :=
  heapAlloc σ (npSlice (heapRead σ r) lo hi)

/-! ## Helper lemmas -/

/-- A `List.range`-based sum (the shape produced by the einsum model)
agrees with the corresponding `Finset.range` sum. -/
lemma list_sum_range_eq {L : Type} [AddCommMonoid L] (f : ℕ → L) (m : ℕ) :
    ((List.range m).map f).sum = ∑ i ∈ Finset.range m, f i := by
  induction m with
  | zero => simp
  | succ m ih =>
      rw [List.range_succ, List.map_append, List.sum_append,
        Finset.sum_range_succ, ih]
      simp

/-- On operands of the current length the series product succeeds and
returns the convolution array. -/
lemma tpsaMulE_ok (n : ℕ) (a b : List K)
    (ha : a.length = n + 1) (hb : b.length = n + 1) :
    tpsaMulE n a b = Except.ok (tpsaMulNum n a b) := by
  rw [tpsaMulE, if_neg (by omega), if_pos ⟨ha, hb⟩, tpsaMkSeq, tpsaInit,
    if_pos (by simp [tpsaMulNum, ha])]

/-! ## C1 -/

/-- C1: for numeric series `a`, `b` of the current order (length
`n + 1`), the product `a * b` is the series whose `j`-th coefficient
equals `∑ k = 0..j, C(j,k) * a[k] * b[j-k]`, with `C` the binomial
table for the current order. -/
theorem mul_is_binomial_convolution (n : ℕ) (a b : List ℝ)
    (ha : a.length = n + 1) (hb : b.length = n + 1) :
    tpsaMulE n a b = Except.ok ((List.range (n + 1)).map (fun j =>
      ∑ k ∈ Finset.range (j + 1),
        (Nat.choose j k : ℝ) * coeff a k * coeff b (j - k))) := by
  rw [tpsaMulE_ok n a b ha hb, tpsaMulNum, ha]
  refine congrArg Except.ok (List.map_congr_left ?_)
  intro j hj
  rw [List.mem_range] at hj
  rw [convCoeff, list_sum_range_eq]
  rw [← Finset.sum_subset (Finset.range_subset.2 (by omega : j + 1 ≤ n + 1))
    (by
      intro x _ hx
      rw [Finset.mem_range, Nat.lt_succ_iff, not_le] at hx
      rw [if_neg (by omega), mul_zero])]
  refine Finset.sum_congr rfl ?_
  intro k hk
  rw [Finset.mem_range, Nat.lt_succ_iff] at hk
  rw [if_pos hk]

/-- Witness for C1 at a concrete input: `n = 2`, `a = [1,2,3]`,
`b = [4,5,6]`. -/
theorem mul_is_binomial_convolution_witness :
    (([1, 2, 3] : List ℝ).length = 2 + 1) ∧
    tpsaMulE 2 ([1, 2, 3] : List ℝ) [4, 5, 6] =
      Except.ok ((List.range (2 + 1)).map (fun j =>
        ∑ k ∈ Finset.range (j + 1),
          (Nat.choose j k : ℝ) * coeff [1, 2, 3] k * coeff [4, 5, 6] (j - k))) :=
  ⟨rfl, mul_is_binomial_convolution 2 [1, 2, 3] [4, 5, 6] rfl rfl⟩

/-! ## C2 -/

/-- Evaluation of `TPSA.sin` on `TPSA(x0)` at the default order 2. -/
lemma tpsaSinN_mkScalar (x0 : ℝ) :
    tpsaSinN Real.sin Real.cos 2 (tpsaMkScalar 2 x0) =
      [Real.sin x0, Real.cos x0, -Real.sin x0] := by
  norm_num [tpsaSinN, tpsaMkScalar, tpsaSeries, tpsaSeriesGo, tpsaMulNum,
    convCoeff, coeff, addCoeff0, List.range_succ]
  ring

/-- C2: for every real `x0`, the series `sin(Series(x0))` (at the
default order 2) has coefficient 0 equal to `sin x0` and coefficient 1
equal to `cos x0` — exactly, in the idealised real model of the
floating-point arithmetic. -/
theorem sin_of_scalar_series_derivatives (x0 : ℝ) :
    tpsaSinD Real.sin Real.cos 2 (.series (tpsaMkScalar 2 x0)) =
      Except.ok (tpsaSinN Real.sin Real.cos 2 (tpsaMkScalar 2 x0)) ∧
    coeff (tpsaSinN Real.sin Real.cos 2 (tpsaMkScalar 2 x0)) 0 = Real.sin x0 ∧
    coeff (tpsaSinN Real.sin Real.cos 2 (tpsaMkScalar 2 x0)) 1 = Real.cos x0 := by
  refine ⟨rfl, ?_, ?_⟩ <;> rw [tpsaSinN_mkScalar] <;> rfl

/-- Reduction of a successful `Except` bind written in `do`
notation. -/
@[simp] lemma exceptBindOkDo {α β : Type} (a : α) (f : α → Except PyErr β) :
    (do let x ← (Except.ok a : Except PyErr α); f x) = f a := rfl

/-- Reduction of a successful `Except.bind`. -/
@[simp] lemma exceptBindOk {α β : Type} (a : α) (f : α → Except PyErr β) :
    Except.bind (Except.ok a) f = f a := rfl

/-! ## C3 -/

/-- C3: for every numeric series `a = [a0, a1, a2]` of the default
order 2 with nonzero base coefficient, the product `(1/a) * a`
(`__rtruediv__` with numerator `1`, followed by the series `__mul__`)
is exactly the multiplicative-identity series `[1, 0, 0]` in the
idealised real model. -/
theorem inv_mul_roundtrip_is_one (a0 a1 a2 : ℝ) (h : a0 ≠ 0) :
    (tpsaRDivSE 2 1 [a0, a1, a2]).bind (fun w => tpsaMulE 2 w [a0, a1, a2]) =
      Except.ok [1, 0, 0] := by
  norm_num [tpsaRDivSE, tpsaScalarDivE, tpsaScalarMulE, tpsaMkSeq, tpsaInit,
    tpsaMulE, tpsaMulNum, convCoeff, coeff, addCoeff0, tpsaSeries,
    tpsaSeriesGo, divFactors, List.range_succ, List.cons_ne_nil,
    Except.ok.injEq, List.cons.injEq]
  refine ⟨?_, ?_, ?_⟩ <;> field_simp <;> ring

/-- Witness for C3 at the concrete series `[2, 5, 7]`. -/
theorem inv_mul_roundtrip_is_one_witness :
    ((2 : ℝ) ≠ 0) ∧
    (tpsaRDivSE 2 1 [(2 : ℝ), 5, 7]).bind (fun w => tpsaMulE 2 w [2, 5, 7]) =
      Except.ok [1, 0, 0] :=
  ⟨by norm_num, inv_mul_roundtrip_is_one 2 5 7 (by norm_num)⟩

/-- Reduction of a failed `Except` bind written in `do` notation. -/
@[simp] lemma exceptBindErrDo {α β : Type} (e : PyErr) (f : α → Except PyErr β) :
    (do let x ← (Except.error e : Except PyErr α); f x) = Except.error e := rfl

/-- Reduction of a failed `Except.bind`. -/
@[simp] lemma exceptBindErr {α β : Type} (e : PyErr) (f : α → Except PyErr β) :
    Except.bind (Except.error e : Except PyErr α) f = Except.error e := rfl

/-! ## C4 -/

/-- C4 (code bug): `TPSA.logistic` applied to any series of the
current length raises the constructor's `TypeError` instead of
returning `(1 + (-t))^p`, because it builds `TPSA(-trunc)` — the
constructor applied to an already-constructed TPSA object, which
matches none of its `isinstance` branches. -/
theorem logistic_raises_type_error_on_series (expF logF : ℝ → ℝ) (n : ℕ)
    (s : List ℝ) (p : ℝ) (h : s.length = n + 1) :
    tpsaLogisticD expF logF n (.series s) p = Except.error PyErr.invalidType := by
  simp [tpsaLogisticD, tpsaNegE, tpsaMkSeq, tpsaInit, h]

/-- Witness for C4 at the series `Series(1.0)` of the default
order 2. -/
theorem logistic_raises_type_error_on_series_witness :
    (([1, 1, 0] : List ℝ).length = 2 + 1) ∧
    tpsaLogisticD Real.exp Real.log 2 (.series [1, 1, 0]) 1 =
      Except.error PyErr.invalidType :=
  ⟨rfl, logistic_raises_type_error_on_series Real.exp Real.log 2 [1, 1, 0] 1 rfl⟩

/-! ## C5 -/

/-- C5 counterexample: `TPSA.logistic` applied to the plain number
`1/2` (a non-series argument) does not fail with the explicit
"only accepts a series object" error — it happily builds the series
`TPSA(-1/2)` through the scalar constructor branch and returns
`(1 + TPSA(-1/2)) ** 1`. -/
theorem logistic_accepts_number_counterexample :
    tpsaLogisticD Real.exp Real.log 2 (.num (1 / 2)) 1 ≠
      Except.error PyErr.onlySeries ∧
    tpsaLogisticD Real.exp Real.log 2 (.num (1 / 2)) 1 =
      Except.ok (tpsaPowN Real.exp Real.log 2
        (addCoeff0 1 (tpsaMkScalar 2 (-(1 / 2)))) 1) := by
  constructor
  · simp [tpsaLogisticD]
  · rfl

/-- C5 amended: every elementary function except `logistic` and
`heaviside` fails with the explicit "only accepts TPSA object" error
on a numeric non-series argument; `logistic` and `heaviside` instead
construct a series from the number and return it successfully. -/
theorem elementary_funcs_nonseries_dispatch (x p sharp : ℝ) :
    tpsaExpD Real.exp 2 (.num x) = Except.error PyErr.onlySeries ∧
    tpsaLnD Real.log 2 (.num x) = Except.error PyErr.onlySeries ∧
    tpsaSinD Real.sin Real.cos 2 (.num x) = Except.error PyErr.onlySeries ∧
    tpsaCosD Real.sin Real.cos 2 (.num x) = Except.error PyErr.onlySeries ∧
    tpsaTanD Real.sin Real.cos 2 (.num x) = Except.error PyErr.onlySeries ∧
    tpsaSecD Real.sin Real.cos 2 (.num x) = Except.error PyErr.onlySeries ∧
    tpsaCscD Real.sin Real.cos 2 (.num x) = Except.error PyErr.onlySeries ∧
    tpsaCotD Real.sin Real.cos 2 (.num x) = Except.error PyErr.onlySeries ∧
    tpsaTanhD Real.exp 2 (.num x) = Except.error PyErr.onlySeries ∧
    (∃ s, tpsaLogisticD Real.exp Real.log 2 (.num x) p = Except.ok s) ∧
    (∃ s, tpsaHeavisideD Real.exp Real.log 2 (.num x) sharp = Except.ok s) :=
  ⟨rfl, rfl, rfl, rfl, rfl, rfl, rfl, rfl, rfl, ⟨_, rfl⟩, ⟨_, rfl⟩⟩

/-! ## C6 -/

/-- C6: constructing from a sequence of exactly `order+1` numbers
stores the values verbatim (the float cast is the identity in the
idealised real model), and a sequence of any other length fails with
the length-mismatch error. -/
theorem construct_from_sequence_length_check (n : ℕ) (xs : List ℝ) :
    (xs.length = n + 1 → tpsaInit n (.seq xs) = Except.ok xs) ∧
    (xs.length ≠ n + 1 →
      tpsaInit n (.seq xs) =
        Except.error (.lengthMismatch xs.length (n + 1))) := by
  constructor <;> intro h <;> simp [tpsaInit, h]

/-- Witness for C6: a length-3 sequence at order 2 is stored verbatim;
a length-2 sequence fails. -/
theorem construct_from_sequence_length_check_witness :
    tpsaInit 2 (.seq ([1, 2, 3] : List ℝ)) = Except.ok [1, 2, 3] ∧
    tpsaInit 2 (.seq ([1, 2] : List ℝ)) =
      Except.error (.lengthMismatch 2 3) :=
  ⟨(construct_from_sequence_length_check 2 [1, 2, 3]).1 (by norm_num),
   (construct_from_sequence_length_check 2 [1, 2]).2 (by norm_num)⟩

/-! ## C7 -/

/-- C7: `abs(a)` returns `-a` when coefficient 0 is positive, returns
`a` itself when it is negative, and fails with the domain error
exactly when it is zero. -/
theorem abs_sign_dispatch (n : ℕ) (a : List ℝ) (h : a.length = n + 1) :
    (coeff a 0 = 0 → tpsaAbsE n a = Except.error PyErr.absAmbiguous) ∧
    (0 < coeff a 0 → tpsaAbsE n a = Except.ok (a.map (fun c => -c))) ∧
    (coeff a 0 < 0 → tpsaAbsE n a = Except.ok a) := by
  refine ⟨fun h0 => by simp [tpsaAbsE, h0], fun hp => ?_, fun hn => ?_⟩
  · rw [tpsaAbsE, if_neg hp.ne', if_pos hp, tpsaNegE, tpsaMkSeq, tpsaInit,
      if_pos (by simp [h])]
  · rw [tpsaAbsE, if_neg hn.ne, if_neg (not_lt.2 hn.le)]

/-- Witness for C7 at `a = [-2, 5, 7]`, order 2. -/
theorem abs_sign_dispatch_witness :
    (([-2, 5, 7] : List ℝ).length = 2 + 1) ∧
    coeff ([-2, 5, 7] : List ℝ) 0 < 0 ∧
    tpsaAbsE 2 ([-2, 5, 7] : List ℝ) = Except.ok [-2, 5, 7] :=
  ⟨rfl, by norm_num [coeff],
   (abs_sign_dispatch 2 [-2, 5, 7] rfl).2.2 (by norm_num [coeff])⟩

/-! ## C8 -/

/-- C8: reading a slice of a series copies the selected coefficients
into a freshly allocated array, and writing any element of the
returned array leaves the series' own coefficient vector unchanged. -/
theorem getitem_slice_copy_semantics (σ : NpHeap ℝ) (r lo hi : ℕ)
    (h : r < σ.arrs.length) :
    heapRead (tpsaGetSlice σ r lo hi).1 (tpsaGetSlice σ r lo hi).2 =
      npSlice (heapRead σ r) lo hi ∧
    ∀ i x, heapRead (heapWrite (tpsaGetSlice σ r lo hi).1
        (tpsaGetSlice σ r lo hi).2 i x) r = heapRead σ r := by
  constructor
  · show (σ.arrs ++ [npSlice (heapRead σ r) lo hi]).getD σ.arrs.length [] = _
    rw [List.getD_eq_getElem?_getD, List.getElem?_concat_length]
    rfl
  · intro i x
    show (List.set (σ.arrs ++ [npSlice (heapRead σ r) lo hi]) σ.arrs.length
        _).getD r [] = σ.arrs.getD r []
    rw [List.getD_eq_getElem?_getD, List.getElem?_set_ne (by omega),
      List.getElem?_append_left h, List.getD_eq_getElem?_getD]

/-- Witness for C8: a one-series heap holding `[1, 2, 3]`, slicing
`[1:3]` and overwriting element 0 of the copy. -/
theorem getitem_slice_copy_semantics_witness :
    (0 < (NpHeap.mk [[(1 : ℝ), 2, 3]]).arrs.length) ∧
    heapRead (heapWrite (tpsaGetSlice (NpHeap.mk [[(1 : ℝ), 2, 3]]) 0 1 3).1
        (tpsaGetSlice (NpHeap.mk [[(1 : ℝ), 2, 3]]) 0 1 3).2 0 15) 0 =
      heapRead (NpHeap.mk [[(1 : ℝ), 2, 3]]) 0 :=
  ⟨by norm_num,
   (getitem_slice_copy_semantics (NpHeap.mk [[(1 : ℝ), 2, 3]]) 0 1 3
     (by norm_num)).2 0 15⟩

/-! ## C9 -/

/-- C9 counterexample: multiplying the delegate named `x` by the
delegate named `0.0` keeps `x` (the shorter name) as the outer factor
and never inspects the other operand for a zero literal, giving the
display name `x*(0.0)` rather than the claimed `0`. -/
theorem delegate_mul_zero_name_counterexample :
    (delegateMul (K := ℝ) ⟨fun x => x, "x"⟩ ⟨fun _ => 0, "0.0"⟩).string =
      "x*(0.0)" ∧
    (delegateMul (K := ℝ) ⟨fun x => x, "x"⟩ ⟨fun _ => 0, "0.0"⟩).string ≠
      "0" := by
  have h1 : (delegateMul (K := ℝ) ⟨fun x => x, "x"⟩
      ⟨fun _ => 0, "0.0"⟩).string = "x*(0.0)" := rfl
  exact ⟨h1, by rw [h1]; decide⟩

/-- C9 amended: the product's display name collapses to `"0"` when the
operand chosen as the outer factor — the first operand when its name is
no longer than the second's, otherwise the second operand — has a
textual zero-literal name. -/
theorem delegate_mul_zero_name_folding (d g : DelegateFunc ℝ) :
    (d.string.length ≤ g.string.length → isZeroLiteral d.string = true →
      (delegateMul d g).string = "0") ∧
    (g.string.length < d.string.length → isZeroLiteral g.string = true →
      (delegateMul d g).string = "0") := by
  constructor
  · intro hl hz
    rw [delegateMul, if_pos hl]
    simp [hz]
  · intro hl hz
    rw [delegateMul, if_neg (not_le.2 hl)]
    simp [hz]

/-- Witness for the amended C9: `"0" * "xyz"` and `"xyz" * "0"` both
collapse to `"0"`. -/
theorem delegate_mul_zero_name_folding_witness :
    (delegateMul (K := ℝ) ⟨fun _ => 0, "0"⟩ ⟨fun x => x, "xyz"⟩).string = "0" ∧
    (delegateMul (K := ℝ) ⟨fun x => x, "xyz"⟩ ⟨fun _ => 0, "0"⟩).string = "0" :=
  ⟨(delegate_mul_zero_name_folding ⟨fun _ => 0, "0"⟩ ⟨fun x => x, "xyz"⟩).1
      (by decide) (by decide),
   (delegate_mul_zero_name_folding ⟨fun x => x, "xyz"⟩ ⟨fun _ => 0, "0"⟩).2
      (by decide) (by decide)⟩

/-! ## C10 -/

/-- C10 counterexample: two series of length 3 after the order was
changed to 3 (expected length 4).  Their product does not raise the
construction length-mismatch error: the very first einsum of the
convolution loop raises a numpy shape error before any constructor
call. -/
theorem stale_length_mul_error_counterexample :
    tpsaMulE 3 ([1, 2, 3] : List ℝ) [1, 2, 3] =
      Except.error PyErr.einsumShape ∧
    tpsaMulE 3 ([1, 2, 3] : List ℝ) [1, 2, 3] ≠
      Except.error (PyErr.lengthMismatch 3 4) := by
  constructor
  · rw [tpsaMulE, if_neg (by norm_num), if_neg (by norm_num)]
  · rw [tpsaMulE, if_neg (by norm_num), if_neg (by norm_num)]
    simp

/-- C10 amended: for two numeric series whose common stored length `k`
differs from the current order plus one, `a + b`, `a - b` and `a / b`
raise the construction length-mismatch error (the numpy elementwise
step succeeds on the equal-length operands and the validating
constructor then fails), while `a * b` instead fails with the einsum
shape error inside the vectorized convolution, before any constructor
runs. -/
theorem stale_length_binary_ops_errors (n k : ℕ) (a b : List ℝ)
    (ha : a.length = k) (hb : b.length = k) (hk : k ≠ n + 1)
    (hk1 : 1 ≤ k) :
    tpsaAddE n a b = Except.error (.lengthMismatch k (n + 1)) ∧
    tpsaSubE n a b = Except.error (.lengthMismatch k (n + 1)) ∧
    tpsaDivE n a b = Except.error (.lengthMismatch k (n + 1)) ∧
    tpsaMulE n a b = Except.error PyErr.einsumShape := by
  refine ⟨?_, ?_, ?_, ?_⟩
  · simp [tpsaAddE, npBinAdd, ha, hb, tpsaMkSeq, tpsaInit, hk]
  · simp [tpsaSubE, tpsaNegE, tpsaMkSeq, tpsaInit, hb, hk]
  · simp [tpsaDivE, tpsaScalarDivE, tpsaMkSeq, tpsaInit, hb, hk]
  · rw [tpsaMulE, if_neg (by omega), if_neg (by
      rintro ⟨h1, -⟩
      omega)]

/-- Witness for the amended C10: `k = 3`, order `n = 3`. -/
theorem stale_length_binary_ops_errors_witness :
    (([1, 2, 3] : List ℝ).length = 3) ∧ (3 ≠ 3 + 1) ∧
    tpsaAddE 3 ([1, 2, 3] : List ℝ) [1, 2, 3] =
      Except.error (.lengthMismatch 3 4) :=
  ⟨rfl, by norm_num,
   (stale_length_binary_ops_errors 3 3 [1, 2, 3] [1, 2, 3] rfl rfl
     (by norm_num) (by norm_num)).1⟩
